import Mathlib

/-!
Verification of the CDK deployment topology of the visa-b2b-account-payable-agent
infrastructure (stacks: `InfrastructureStack`, `LambdaStack`, `AgentCoreInvokerStack`,
`GRProcessingStack`, `InvoiceProcessingStack`, `VisaStubStack`).

Each stack constructor is embedded shallowly: the Lambda functions it creates
(with their environment maps, VPC attachment and accumulated IAM policy
statements), the security-group ingress rules, the API Gateway surfaces, and the
cross-stack exports.  Deploy-time inputs (`this.account`, `this.region`, props,
CDK context) are threaded explicitly as parameters.
-/

namespace RtpOverlay

/-- One entry of an IAM policy condition block: operator, condition key, value
(e.g. `StringEquals / kms:RequestAlias / alias/rtp-overlay-payment-cards`). -/
structure PolicyCondition where
  op : String
  key : String
  value : String
deriving DecidableEq, Repr

/-- One `iam.PolicyStatement` as passed to `addToRolePolicy` / issued by a CDK
`grant*` helper: action list, resource ARN list, optional condition block. -/
structure PolicyStatement where
  actions : List String
  resources : List String
  conditions : List PolicyCondition
deriving DecidableEq, Repr

/-- A value placed in a Lambda environment map: either a literal string or a
deploy-time `cdk.Fn.importValue` of another stack's named export. -/
inductive EnvValue where
  | lit (s : String)
  | importValue (exportName : String)
deriving DecidableEq, Repr

/-- A Lambda function as synthesized by one of the stacks: CDK construct id,
optional explicit `functionName`, environment map, whether a `vpc:` property was
supplied, and the IAM policy statements attached to its role (in source order). -/
structure LambdaFunction where
  constructId : String
  functionName : Option String
  handler : String
  environment : List (String × EnvValue)
  inVpc : Bool
  policies : List PolicyStatement
deriving DecidableEq, Repr

/-- Look a key up in a Lambda function's environment map. -/
def envLookup (f : LambdaFunction) (k : String) : Option EnvValue :=
  (f.environment.find? (fun kv => decide (kv.1 = k))).map (fun kv => kv.2)

/-- The source of a security-group ingress rule: an IPv4 CIDR range
(`ec2.Peer.ipv4`) or another security group passed directly. -/
inductive SGPeer where
  | ipv4 (cidr : String)
  | securityGroup (sgConstructId : String)
deriving DecidableEq, Repr

/-- One `addIngressRule` call on a security group. -/
structure IngressRule where
  source : SGPeer
  tcpPort : Nat
  description : String
deriving DecidableEq, Repr

/-- Whether an ingress rule's source is a security group (attachment-to-attachment). -/
def isSecurityGroupPeer : SGPeer → Bool
  | SGPeer.securityGroup _ => true
  | SGPeer.ipv4 _ => false

/-- One API Gateway method wiring: resource path (as path parts), HTTP method,
and the construct id of the Lambda integrated behind it. -/
structure ApiMethod where
  path : List String
  httpMethod : String
  integration : String
deriving DecidableEq, Repr

/-- A catch-all `addProxy` resource: whether `anyMethod` is set and the construct
id of the Lambda behind the default integration. -/
structure ProxyResource where
  anyMethod : Bool
  integration : String
deriving DecidableEq, Repr

/-- An `apigateway.RestApi` as configured by a stack: name, declared binary media
types, optional catch-all proxy resource, and explicitly added methods. -/
structure RestApiModel where
  restApiName : String
  binaryMediaTypes : List String
  proxyResource : Option ProxyResource
  methods : List ApiMethod
deriving DecidableEq, Repr

/-! ### Bucket names and ARNs

Bucket names interpolate the deploying account, exactly as the stacks build
them (`rtp-overlay-…-${this.account}`). -/

def receiptsBucketName (account : String) : String :=
  "rtp-overlay-receipts-" ++ account

def invoiceInputBucketName (account : String) : String :=
  "rtp-overlay-invoices-input-" ++ account

def grInputBucketName (account : String) : String :=
  "rtp-overlay-receipts-input-" ++ account

def iso20022BucketName (account : String) : String :=
  "rtp-overlay-iso20022-" ++ account

/-- The ARN of a bucket itself. -/
def bucketArn (name : String) : String := "arn:aws:s3:::" ++ name

/-- The ARN pattern covering the objects of a bucket. -/
def bucketObjectsArn (name : String) : String := "arn:aws:s3:::" ++ name ++ "/*"

/-- The four object stores of the deployment. -/
def allBuckets (account : String) : List String :=
  [receiptsBucketName account, invoiceInputBucketName account,
   grInputBucketName account, iso20022BucketName account]

/-! ### CDK grant helpers

`Bucket.grantRead` / `Bucket.grantWrite` / `Secret.grantRead` are library calls;
their statements are modelled after aws-cdk-lib's fixed action sets. -/

/-- The statement issued by `bucket.grantRead(fn)` (aws-cdk-lib BUCKET_READ_ACTIONS). -/
def grantReadStatement (name : String) : PolicyStatement :=
  { actions := ["s3:GetObject*", "s3:GetBucket*", "s3:List*"],
    resources := [bucketArn name, bucketObjectsArn name],
    conditions := [] }

/-- The statement issued by `bucket.grantWrite(fn)` (aws-cdk-lib delete + put actions). -/
def grantWriteStatement (name : String) : PolicyStatement :=
  { actions := ["s3:DeleteObject*", "s3:PutObject", "s3:PutObjectLegalHold",
                "s3:PutObjectRetention", "s3:PutObjectTagging",
                "s3:PutObjectVersionTagging", "s3:Abort*"],
    resources := [bucketArn name, bucketObjectsArn name],
    conditions := [] }

/-- The statement issued by `secret.grantRead(fn)`. -/
def secretGrantReadStatement (secretArn : String) : PolicyStatement :=
  { actions := ["secretsmanager:GetSecretValue", "secretsmanager:DescribeSecret"],
    resources := [secretArn],
    conditions := [] }

/-- Whether `pre` is a prefix of `a`, computed on the character lists. -/
def strHasPrefix (pre a : String) : Bool := pre.data.isPrefixOf a.data

/-- An S3 action (possibly a `*` pattern) that writes or deletes: the put,
delete and multipart-abort verbs. -/
def isS3WriteAction (a : String) : Bool :=
  strHasPrefix "s3:Put" a || strHasPrefix "s3:Delete" a || strHasPrefix "s3:Abort" a

/-- A function holds a write grant on a bucket when some statement of its role
grants an S3 write/delete action on the bucket's objects ARN. -/
def grantsS3WriteOn (f : LambdaFunction) (bucket : String) : Bool :=
  f.policies.any (fun p =>
    p.actions.any isS3WriteAction &&
    p.resources.any (fun r => decide (r = bucketObjectsArn bucket)))

/-! ### VisaStubStack (visa-stub-stack.ts, first part) -/

/-- The `VirtualCardRequisition` stub Lambda (visa-stub-stack.ts lines 11-21). -/
def virtualCardLambda : LambdaFunction :=
  { constructId := "VirtualCardRequisition",
    functionName := none,
    handler := "index.virtualCardRequisition",
    environment := [("RESPONSE_MODE", EnvValue.lit "SUCCESS")],
    inVpc := false,
    policies := [] }

/-- The `ProcessPayments` stub Lambda (visa-stub-stack.ts lines 24-34). -/
def processPaymentsLambda : LambdaFunction :=
  { constructId := "ProcessPayments",
    functionName := none,
    handler := "index.processPayments",
    environment := [("RESPONSE_MODE", EnvValue.lit "SUCCESS")],
    inVpc := false,
    policies := [] }

/-- The `GetPaymentDetails` stub Lambda (visa-stub-stack.ts lines 37-47). -/
def getPaymentDetailsLambda : LambdaFunction :=
  { constructId := "GetPaymentDetails",
    functionName := none,
    handler := "index.getPaymentDetails",
    environment := [("RESPONSE_MODE", EnvValue.lit "SUCCESS")],
    inVpc := false,
    policies := [] }

/-- The `GetSecurityCode` stub Lambda (visa-stub-stack.ts lines 50-60). -/
def getSecurityCodeLambda : LambdaFunction :=
  { constructId := "GetSecurityCode",
    functionName := none,
    handler := "index.getSecurityCode",
    environment := [("RESPONSE_MODE", EnvValue.lit "SUCCESS")],
    inVpc := false,
    policies := [] }

/-- The four stub Lambdas, in source declaration order. -/
def visaStubLambdas : List LambdaFunction :=
  [virtualCardLambda, processPaymentsLambda, getPaymentDetailsLambda,
   getSecurityCodeLambda]

/-- The method wiring of the stub API (visa-stub-stack.ts lines 78-118):
`addResource` chains under `/vpa/v1` and one POST `addMethod` per endpoint. -/
def visaStubMethods : List ApiMethod :=
  [ { path := ["vpa", "v1", "accountManagement", "VirtualCardRequisition"],
      httpMethod := "POST", integration := "VirtualCardRequisition" },
    { path := ["vpa", "v1", "accountManagement", "GetSecurityCode"],
      httpMethod := "POST", integration := "GetSecurityCode" },
    { path := ["vpa", "v1", "payment", "ProcessPayments"],
      httpMethod := "POST", integration := "ProcessPayments" },
    { path := ["vpa", "v1", "payment", "GetPaymentDetails"],
      httpMethod := "POST", integration := "GetPaymentDetails" } ]

/-- The `VisaStubApi` REST API (visa-stub-stack.ts lines 63-118): no binary
media types, no catch-all proxy, the four POST methods. -/
def visaStubApi : RestApiModel :=
  { restApiName := "visa-b2b-stub-api",
    binaryMediaTypes := [],
    proxyResource := none,
    methods := visaStubMethods }

/-- The stub Lambda a method of the stub API is integrated with. -/
def stubLambdaFor (cid : String) : Option LambdaFunction :=
  visaStubLambdas.find? (fun f => decide (f.constructId = cid))

/-! ### AgentCoreInvokerStack (infrastructure-stack.ts, second part) -/

/-- The Agent Invocation Bridge Lambda (infrastructure-stack.ts lines 219-243):
fixed `functionName`, no VPC, `RUNTIME_ARN` environment set to the literal
`'PLACEHOLDER'`, and one bedrock-agentcore invoke policy. -/
def agentCoreInvokerLambda (account : String) : LambdaFunction :=
  { constructId := "AgentCoreInvokerLambda",
    functionName := some "rtp-overlay-agentcore-invoker",
    handler := "agentcore_invoker.lambda_handler",
    environment := [("RUNTIME_ARN", EnvValue.lit "PLACEHOLDER")],
    inVpc := false,
    policies :=
      [ { actions := ["bedrock-agentcore:InvokeAgentRuntime",
                      "bedrock-agentcore:GetAgentRuntime"],
          resources := ["arn:aws:bedrock-agentcore:us-east-1:" ++ account ++ ":runtime/*"],
          conditions := [] } ] }

/-- The `CfnOutput` exports of `AgentCoreInvokerStack` (infrastructure-stack.ts
lines 257-267), as export-name/value pairs. -/
def agentCoreInvokerStackExports (account : String) : List (String × String) :=
  [ ("AgentCoreInvokerLambdaName", "rtp-overlay-agentcore-invoker"),
    ("AgentCoreInvokerLambdaArn",
      "arn:aws:lambda:us-east-1:" ++ account ++ ":function:rtp-overlay-agentcore-invoker") ]

/-- Resolve an environment value at apply time against a producer's exports:
a literal stands for itself, an import reads the named export. -/
def resolveImport (exports : List (String × String)) : EnvValue → Option String
  | EnvValue.lit s => some s
  | EnvValue.importValue n => (exports.find? (fun kv => decide (kv.1 = n))).map (fun kv => kv.2)

/-! ### InfrastructureStack (infrastructure-stack.ts, first part)

Only the database security group's ingress rules are claim-relevant.  The VPC
CIDR block is a deploy-time token, threaded as a parameter. -/

/-- The two `addIngressRule` calls on `DbSecurityGroup` (infrastructure-stack.ts
lines 77-81 and 91-95), in source order: a VPC-CIDR rule, then a rule whose
source is the `LambdaSecurityGroup` security group. -/
def dbSecurityGroupIngress (vpcCidrBlock : String) : List IngressRule :=
  [ { source := SGPeer.ipv4 vpcCidrBlock, tcpPort := 5432,
      description := "Allow PostgreSQL access from VPC" },
    { source := SGPeer.securityGroup "LambdaSecurityGroup", tcpPort := 5432,
      description := "Allow Lambda access to RDS" } ]

/-! ### LambdaStack (visa-stub-stack.ts, second part) -/

/-- The props handed to `LambdaStack` (visa-stub-stack.ts lines 157-162). -/
structure LambdaStackProps where
  vpcId : String
  dbEndpoint : String
  dbSecretArn : String
  s3BucketName : String
deriving DecidableEq, Repr

/-- The context-dependent `AGENTCORE_INVOKER_LAMBDA_NAME` value (visa-stub-stack.ts
lines 221-223): `Fn.importValue('AgentCoreInvokerLambdaName')` when the
`agentcoreInvokerExists` context is the string `'true'`, else the literal
default function name.  `tryGetContext` yields `none` when the key is unset. -/
def agentcoreInvokerEnvValue (ctx : Option String) : EnvValue :=
  if ctx = some "true" then EnvValue.importValue "AgentCoreInvokerLambdaName"
  else EnvValue.lit "rtp-overlay-agentcore-invoker"

/-- The `ApiLambda` environment map (visa-stub-stack.ts lines 203-224), in
source order. -/
def apiLambdaEnvironment (account : String) (props : LambdaStackProps)
    (ctx : Option String) : List (String × EnvValue) :=
  [ ("NODE_ENV", EnvValue.lit "production"),
    ("DB_HOST", EnvValue.lit props.dbEndpoint),
    ("DB_PORT", EnvValue.lit "5432"),
    ("DB_DATABASE", EnvValue.lit "rtpoverlay"),
    ("DB_SSL", EnvValue.lit "true"),
    ("DB_SECRET_ARN", EnvValue.lit props.dbSecretArn),
    ("AWS_S3_BUCKET", EnvValue.lit props.s3BucketName),
    ("S3_INPUT_BUCKET", EnvValue.lit ("rtp-overlay-invoices-input-" ++ account)),
    ("S3_GR_INPUT_BUCKET", EnvValue.lit ("rtp-overlay-receipts-input-" ++ account)),
    ("ISO20022_BUCKET_NAME", EnvValue.lit ("rtp-overlay-iso20022-" ++ account)),
    ("RECEIPTS_BUCKET", EnvValue.lit props.s3BucketName),
    ("CORS_ORIGIN", EnvValue.lit "*"),
    ("PAYMENT_AGENT_ARN", EnvValue.lit
      ("arn:aws:bedrock-agentcore:us-east-1:" ++ account
        ++ ":runtime/visa_b2b_payment_agent-pnP6d452ZH")),
    ("KMS_KEY_ID", EnvValue.lit "alias/rtp-overlay-payment-cards"),
    ("AGENTCORE_INVOKER_LAMBDA_NAME", agentcoreInvokerEnvValue ctx) ]

/-- The nine `addToRolePolicy` statements accumulated on `ApiLambda`
(visa-stub-stack.ts lines 229-284, then 365-387), in source order. -/
def apiLambdaPolicies (account : String) (props : LambdaStackProps) :
    List PolicyStatement :=
  [ { actions := ["secretsmanager:GetSecretValue"],
      resources := [props.dbSecretArn], conditions := [] },
    { actions := ["s3:GetObject", "s3:PutObject", "s3:DeleteObject"],
      resources := [bucketObjectsArn props.s3BucketName], conditions := [] },
    { actions := ["s3:ListBucket"],
      resources := [bucketArn props.s3BucketName], conditions := [] },
    { actions := ["s3:PutObject", "s3:GetObject"],
      resources := [bucketObjectsArn ("rtp-overlay-invoices-input-" ++ account)],
      conditions := [] },
    { actions := ["s3:PutObject", "s3:GetObject"],
      resources := [bucketObjectsArn ("rtp-overlay-receipts-input-" ++ account)],
      conditions := [] },
    { actions := ["s3:GetObject"],
      resources := [bucketObjectsArn ("rtp-overlay-iso20022-" ++ account)],
      conditions := [] },
    { actions := ["bedrock-agentcore:InvokeRuntime", "bedrock-agentcore:GetAgentRuntime"],
      resources := ["arn:aws:bedrock-agentcore:us-east-1:" ++ account ++ ":runtime/*"],
      conditions := [] },
    { actions := ["lambda:InvokeFunction"],
      resources := ["arn:aws:lambda:us-east-1:" ++ account
        ++ ":function:rtp-overlay-agentcore-invoker"],
      conditions := [] },
    { actions := ["kms:Encrypt", "kms:Decrypt", "kms:DescribeKey"],
      resources := ["arn:aws:kms:us-east-1:" ++ account ++ ":key/*"],
      conditions := [ { op := "StringEquals", key := "kms:RequestAlias",
                        value := "alias/rtp-overlay-payment-cards" } ] } ]

/-- The `ApiLambda` function of `LambdaStack` (visa-stub-stack.ts lines
191-226 with its role policies): attached to the VPC. -/
def apiLambda (account : String) (props : LambdaStackProps) (ctx : Option String) :
    LambdaFunction :=
  { constructId := "ApiLambda",
    functionName := none,
    handler := "dist/lambda.handler",
    environment := apiLambdaEnvironment account props ctx,
    inVpc := true,
    policies := apiLambdaPolicies account props }

/-- The `MigrationLambda` function (visa-stub-stack.ts lines 328-356):
attached to the VPC, one Secrets Manager read statement. -/
def migrationLambda (props : LambdaStackProps) : LambdaFunction :=
  { constructId := "MigrationLambda",
    functionName := none,
    handler := "dist/scripts/migrate-and-seed-lambda.handler",
    environment :=
      [ ("NODE_ENV", EnvValue.lit "production"),
        ("DB_HOST", EnvValue.lit props.dbEndpoint),
        ("DB_PORT", EnvValue.lit "5432"),
        ("DB_DATABASE", EnvValue.lit "rtpoverlay"),
        ("DB_SECRET_ARN", EnvValue.lit props.dbSecretArn) ],
    inVpc := true,
    policies :=
      [ { actions := ["secretsmanager:GetSecretValue"],
          resources := [props.dbSecretArn], conditions := [] } ] }

/-- The `RtpOverlayApi` REST API (visa-stub-stack.ts lines 287-312): three
binary media types, a single catch-all proxy with `anyMethod` integrating
`ApiLambda`, and no other methods. -/
def rtpOverlayApi : RestApiModel :=
  { restApiName := "RTP Overlay API",
    binaryMediaTypes := ["multipart/form-data", "image/*", "application/pdf"],
    proxyResource := some { anyMethod := true, integration := "ApiLambda" },
    methods := [] }

/-! ### GRProcessingStack (gr-processing-stack.ts) -/

/-- The GR input bucket name: the `inputBucketName` prop when supplied, else
the default `rtp-overlay-receipts-input-${account}` (gr-processing-stack.ts line 22). -/
def grInputBucketOf (account : String) (inputBucketName : Option String) : String :=
  inputBucketName.getD (grInputBucketName account)

/-- The `GRProcessingLambda` function (gr-processing-stack.ts lines 40-77):
no VPC; its role carries the Bedrock invoke statement and the input bucket's
`grantRead` statement, nothing else. -/
def grProcessingLambda (account region rtpApiUrl : String)
    (inputBucketName : Option String) : LambdaFunction :=
  { constructId := "GRProcessingLambda",
    functionName := some "rtp-overlay-gr-processor",
    handler := "lambda_goods_receipt.lambda_handler",
    environment :=
      [ ("RTP_API_URL", EnvValue.lit rtpApiUrl),
        ("BEDROCK_MODEL_ID", EnvValue.lit "us.anthropic.claude-sonnet-4-20250514-v1:0") ],
    inVpc := false,
    policies :=
      [ { actions := ["bedrock:InvokeModel"],
          resources := ["arn:aws:bedrock:*::foundation-model/*",
                        "arn:aws:bedrock:" ++ region ++ ":" ++ account ++ ":inference-profile/*"],
          conditions := [] },
        grantReadStatement (grInputBucketOf account inputBucketName) ] }

/-! ### InvoiceProcessingStack (the lib file whose name is not staged) -/

/-- The API key secret ARN is generated at deploy time; kept as a token. -/
def apiKeySecretArnToken : String := "RtpApiKeySecret.secretArn"

/-- The `InvoiceProcessingLambda` function (InvoiceProcessingStack lines
69-114): no VPC; grants in source order are the input bucket's `grantRead`,
the output bucket's `grantWrite`, the Bedrock invoke statement and the API key
secret's `grantRead`. -/
def invoiceProcessingLambda (account region rtpApiUrl : String) : LambdaFunction :=
  { constructId := "InvoiceProcessingLambda",
    functionName := some "rtp-overlay-invoice-processor",
    handler := "lambda_iso20022.lambda_handler",
    environment :=
      [ ("INPUT_BUCKET", EnvValue.lit (invoiceInputBucketName account)),
        ("OUTPUT_BUCKET", EnvValue.lit (iso20022BucketName account)),
        ("RTP_API_URL", EnvValue.lit rtpApiUrl),
        ("API_KEY_SECRET_NAME", EnvValue.lit "rtp-overlay/api-key") ],
    inVpc := false,
    policies :=
      [ grantReadStatement (invoiceInputBucketName account),
        grantWriteStatement (iso20022BucketName account),
        { actions := ["bedrock:InvokeModel"],
          resources := ["arn:aws:bedrock:*::foundation-model/*",
                        "arn:aws:bedrock:" ++ region ++ ":" ++ account ++ ":inference-profile/*"],
          conditions := [] },
        secretGrantReadStatement apiKeySecretArnToken ] }

/-! ### The deployed topology

The deploy-time inputs of the whole topology.  `LambdaStack` is applied to the
receipts bucket exported by `InfrastructureStack` (`RtpOverlayReceiptsBucket`),
per the deployment order of the stacks. -/

structure DeployParams where
  account : String
  region : String
  vpcId : String
  dbEndpoint : String
  dbSecretArn : String
  rtpApiUrl : String
  agentcoreInvokerExists : Option String
deriving DecidableEq, Repr

/-- The props `LambdaStack` is applied with: the receipts bucket of
`InfrastructureStack` as `s3BucketName`. -/
def lambdaStackPropsOf (p : DeployParams) : LambdaStackProps :=
  { vpcId := p.vpcId, dbEndpoint := p.dbEndpoint, dbSecretArn := p.dbSecretArn,
    s3BucketName := receiptsBucketName p.account }

def apiLambdaOf (p : DeployParams) : LambdaFunction :=
  apiLambda p.account (lambdaStackPropsOf p) p.agentcoreInvokerExists

def migrationLambdaOf (p : DeployParams) : LambdaFunction :=
  migrationLambda (lambdaStackPropsOf p)

def invokerLambdaOf (p : DeployParams) : LambdaFunction :=
  agentCoreInvokerLambda p.account

def grLambdaOf (p : DeployParams) : LambdaFunction :=
  grProcessingLambda p.account p.region p.rtpApiUrl none

def invoiceLambdaOf (p : DeployParams) : LambdaFunction :=
  invoiceProcessingLambda p.account p.region p.rtpApiUrl

/-- Every compute unit the stacks create: the four stub Lambdas, the two
Lambdas of `LambdaStack`, the bridge, and the two ingestion Lambdas. -/
def allComputeUnits (p : DeployParams) : List LambdaFunction :=
  [ virtualCardLambda, processPaymentsLambda, getPaymentDetailsLambda,
    getSecurityCodeLambda, apiLambdaOf p, migrationLambdaOf p,
    invokerLambdaOf p, grLambdaOf p, invoiceLambdaOf p ]

/-- The compute units that hold a write grant on a given bucket. -/
def writersOf (units : List LambdaFunction) (bucket : String) : List LambdaFunction :=
  units.filter (fun f => grantsS3WriteOn f bucket)

/-- The buckets a compute unit holds a write grant on. -/
def writtenBuckets (f : LambdaFunction) (buckets : List String) : List String :=
  buckets.filter (fun b => grantsS3WriteOn f b)

/-- The compute units holding write grants on more than one bucket. -/
def multiBucketWriters (units : List LambdaFunction) (buckets : List String) :
    List LambdaFunction :=
  units.filter (fun f => decide (2 ≤ (writtenBuckets f buckets).length))

/-! ### String disjointness helpers

The bucket names and ARNs interpolate a symbolic account, so their pairwise
distinctness is proved once here and reused by the claim proofs. -/

lemma string_ne_of_length_ne {s t : String} (h : s.length ≠ t.length) : s ≠ t :=
  fun e => h (congrArg String.length e)

lemma string_append_right_cancel_ne {c1 c2 : String} (a : String) (h : c1 ≠ c2) :
    c1 ++ a ≠ c2 ++ a := by
  intro he
  apply h
  apply String.ext
  have hd := congrArg String.data he
  rw [String.data_append, String.data_append] at hd
  exact List.append_cancel_right hd

lemma bucketObjectsArn_ne {n1 n2 : String} (h : n1 ≠ n2) :
    bucketObjectsArn n1 ≠ bucketObjectsArn n2 := by
  intro he
  apply h
  apply String.ext
  have hd := congrArg String.data he
  simp only [bucketObjectsArn, String.data_append] at hd
  exact List.append_cancel_left (List.append_cancel_right hd)

lemma bucketArn_length (n : String) : (bucketArn n).length = 13 + n.length := by
  have h13 : ("arn:aws:s3:::" : String).length = 13 := rfl
  rw [bucketArn, String.length_append, h13]

lemma bucketObjectsArn_length (n : String) :
    (bucketObjectsArn n).length = 13 + n.length + 2 := by
  have h13 : ("arn:aws:s3:::" : String).length = 13 := rfl
  have h2 : ("/*" : String).length = 2 := rfl
  rw [bucketObjectsArn, String.length_append, String.length_append, h13, h2]

lemma bucketArn_ne_objectsArn {n1 n2 : String} (h : n1.length ≠ n2.length + 2) :
    bucketArn n1 ≠ bucketObjectsArn n2 := by
  apply string_ne_of_length_ne
  rw [bucketArn_length, bucketObjectsArn_length]
  omega

lemma recName_ne_isoName (a : String) :
    ("rtp-overlay-receipts-" ++ a : String) ≠ "rtp-overlay-iso20022-" ++ a :=
  string_append_right_cancel_ne a (by decide)

lemma invName_ne_grName (a : String) :
    ("rtp-overlay-invoices-input-" ++ a : String) ≠ "rtp-overlay-receipts-input-" ++ a :=
  string_append_right_cancel_ne a (by decide)

lemma appended_length (c a : String) (n : Nat) (hc : c.length = n) :
    (c ++ a).length = n + a.length := by
  rw [String.length_append, hc]

lemma recName_ne_invName (a : String) :
    ("rtp-overlay-receipts-" ++ a : String) ≠ "rtp-overlay-invoices-input-" ++ a := by
  apply string_ne_of_length_ne
  rw [appended_length "rtp-overlay-receipts-" a 21 rfl,
      appended_length "rtp-overlay-invoices-input-" a 27 rfl]
  omega

lemma recName_ne_grName (a : String) :
    ("rtp-overlay-receipts-" ++ a : String) ≠ "rtp-overlay-receipts-input-" ++ a := by
  apply string_ne_of_length_ne
  rw [appended_length "rtp-overlay-receipts-" a 21 rfl,
      appended_length "rtp-overlay-receipts-input-" a 27 rfl]
  omega

lemma invName_ne_isoName (a : String) :
    ("rtp-overlay-invoices-input-" ++ a : String) ≠ "rtp-overlay-iso20022-" ++ a := by
  apply string_ne_of_length_ne
  rw [appended_length "rtp-overlay-invoices-input-" a 27 rfl,
      appended_length "rtp-overlay-iso20022-" a 21 rfl]
  omega

lemma grName_ne_isoName (a : String) :
    ("rtp-overlay-receipts-input-" ++ a : String) ≠ "rtp-overlay-iso20022-" ++ a := by
  apply string_ne_of_length_ne
  rw [appended_length "rtp-overlay-receipts-input-" a 27 rfl,
      appended_length "rtp-overlay-iso20022-" a 21 rfl]
  omega

/-! ### Evaluating the write-grant predicate on each compute unit -/

/-- A function none of whose statements grants an S3 write action holds no
write grant on any bucket. -/
lemma grantsS3WriteOn_eq_false_of_no_write_action (f : LambdaFunction)
    (h : f.policies.all (fun st => !(st.actions.any isS3WriteAction)) = true)
    (b : String) : grantsS3WriteOn f b = false := by
  apply List.any_eq_false.mpr
  intro st hst
  have hact := List.all_eq_true.mp h st hst
  simp only [Bool.not_eq_true'] at hact
  simp [hact]

lemma virtualCard_no_write (b : String) :
    grantsS3WriteOn virtualCardLambda b = false :=
  grantsS3WriteOn_eq_false_of_no_write_action virtualCardLambda rfl b

lemma processPayments_no_write (b : String) :
    grantsS3WriteOn processPaymentsLambda b = false :=
  grantsS3WriteOn_eq_false_of_no_write_action processPaymentsLambda rfl b

lemma getPaymentDetails_no_write (b : String) :
    grantsS3WriteOn getPaymentDetailsLambda b = false :=
  grantsS3WriteOn_eq_false_of_no_write_action getPaymentDetailsLambda rfl b

lemma getSecurityCode_no_write (b : String) :
    grantsS3WriteOn getSecurityCodeLambda b = false :=
  grantsS3WriteOn_eq_false_of_no_write_action getSecurityCodeLambda rfl b

lemma migration_no_write (p : DeployParams) (b : String) :
    grantsS3WriteOn (migrationLambdaOf p) b = false :=
  grantsS3WriteOn_eq_false_of_no_write_action (migrationLambdaOf p) rfl b

lemma invoker_no_write (p : DeployParams) (b : String) :
    grantsS3WriteOn (invokerLambdaOf p) b = false :=
  grantsS3WriteOn_eq_false_of_no_write_action (invokerLambdaOf p) rfl b

lemma gr_no_write (p : DeployParams) (b : String) :
    grantsS3WriteOn (grLambdaOf p) b = false :=
  grantsS3WriteOn_eq_false_of_no_write_action (grLambdaOf p) rfl b

lemma api_writes_receipts (p : DeployParams) :
    grantsS3WriteOn (apiLambdaOf p) (receiptsBucketName p.account) = true := by
  apply List.any_eq_true.mpr
  refine ⟨{ actions := ["s3:GetObject", "s3:PutObject", "s3:DeleteObject"],
            resources := [bucketObjectsArn (receiptsBucketName p.account)],
            conditions := [] }, ?_, ?_⟩
  · simp [apiLambdaOf, apiLambda, apiLambdaPolicies, lambdaStackPropsOf]
  · rw [Bool.and_eq_true]
    exact ⟨rfl, by simp⟩

lemma api_writes_invoiceInput (p : DeployParams) :
    grantsS3WriteOn (apiLambdaOf p) (invoiceInputBucketName p.account) = true := by
  apply List.any_eq_true.mpr
  refine ⟨{ actions := ["s3:PutObject", "s3:GetObject"],
            resources := [bucketObjectsArn ("rtp-overlay-invoices-input-" ++ p.account)],
            conditions := [] }, ?_, ?_⟩
  · simp [apiLambdaOf, apiLambda, apiLambdaPolicies, lambdaStackPropsOf]
  · rw [Bool.and_eq_true]
    exact ⟨rfl, by simp [invoiceInputBucketName]⟩

lemma api_writes_grInput (p : DeployParams) :
    grantsS3WriteOn (apiLambdaOf p) (grInputBucketName p.account) = true := by
  apply List.any_eq_true.mpr
  refine ⟨{ actions := ["s3:PutObject", "s3:GetObject"],
            resources := [bucketObjectsArn ("rtp-overlay-receipts-input-" ++ p.account)],
            conditions := [] }, ?_, ?_⟩
  · simp [apiLambdaOf, apiLambda, apiLambdaPolicies, lambdaStackPropsOf]
  · rw [Bool.and_eq_true]
    exact ⟨rfl, by simp [grInputBucketName]⟩

lemma api_not_writes_iso (p : DeployParams) :
    grantsS3WriteOn (apiLambdaOf p) (iso20022BucketName p.account) = false := by
  have h1 := decide_eq_false
    (bucketObjectsArn_ne (recName_ne_isoName p.account) :
      bucketObjectsArn ("rtp-overlay-receipts-" ++ p.account)
        ≠ bucketObjectsArn ("rtp-overlay-iso20022-" ++ p.account))
  have h2 := decide_eq_false
    (bucketObjectsArn_ne (invName_ne_isoName p.account) :
      bucketObjectsArn ("rtp-overlay-invoices-input-" ++ p.account)
        ≠ bucketObjectsArn ("rtp-overlay-iso20022-" ++ p.account))
  have h3 := decide_eq_false
    (bucketObjectsArn_ne (grName_ne_isoName p.account) :
      bucketObjectsArn ("rtp-overlay-receipts-input-" ++ p.account)
        ≠ bucketObjectsArn ("rtp-overlay-iso20022-" ++ p.account))
  simp only [grantsS3WriteOn, apiLambdaOf, apiLambda, apiLambdaPolicies,
    lambdaStackPropsOf, receiptsBucketName, iso20022BucketName,
    List.any_cons, List.any_nil, h1, h2, h3]
  rfl

lemma invoice_writes_iso (p : DeployParams) :
    grantsS3WriteOn (invoiceLambdaOf p) (iso20022BucketName p.account) = true := by
  apply List.any_eq_true.mpr
  refine ⟨grantWriteStatement (iso20022BucketName p.account), ?_, ?_⟩
  · simp [invoiceLambdaOf, invoiceProcessingLambda]
  · rw [Bool.and_eq_true]
    exact ⟨rfl, by simp [grantWriteStatement]⟩

lemma invoice_not_writes_receipts (p : DeployParams) :
    grantsS3WriteOn (invoiceLambdaOf p) (receiptsBucketName p.account) = false := by
  have h1 := decide_eq_false
    ((bucketArn_ne_objectsArn (by
        rw [appended_length "rtp-overlay-iso20022-" p.account 21 rfl,
            appended_length "rtp-overlay-receipts-" p.account 21 rfl]
        omega) :
      bucketArn ("rtp-overlay-iso20022-" ++ p.account)
        ≠ bucketObjectsArn ("rtp-overlay-receipts-" ++ p.account)))
  have h2 := decide_eq_false
    (bucketObjectsArn_ne (Ne.symm (recName_ne_isoName p.account)) :
      bucketObjectsArn ("rtp-overlay-iso20022-" ++ p.account)
        ≠ bucketObjectsArn ("rtp-overlay-receipts-" ++ p.account))
  simp only [grantsS3WriteOn, invoiceLambdaOf, invoiceProcessingLambda,
    grantReadStatement, grantWriteStatement, secretGrantReadStatement,
    invoiceInputBucketName, iso20022BucketName, receiptsBucketName,
    List.any_cons, List.any_nil, h1, h2]
  rfl

lemma invoice_not_writes_invoiceInput (p : DeployParams) :
    grantsS3WriteOn (invoiceLambdaOf p) (invoiceInputBucketName p.account) = false := by
  have h1 := decide_eq_false
    ((bucketArn_ne_objectsArn (by
        rw [appended_length "rtp-overlay-iso20022-" p.account 21 rfl,
            appended_length "rtp-overlay-invoices-input-" p.account 27 rfl]
        omega) :
      bucketArn ("rtp-overlay-iso20022-" ++ p.account)
        ≠ bucketObjectsArn ("rtp-overlay-invoices-input-" ++ p.account)))
  have h2 := decide_eq_false
    (bucketObjectsArn_ne (Ne.symm (invName_ne_isoName p.account)) :
      bucketObjectsArn ("rtp-overlay-iso20022-" ++ p.account)
        ≠ bucketObjectsArn ("rtp-overlay-invoices-input-" ++ p.account))
  simp only [grantsS3WriteOn, invoiceLambdaOf, invoiceProcessingLambda,
    grantReadStatement, grantWriteStatement, secretGrantReadStatement,
    invoiceInputBucketName, iso20022BucketName,
    List.any_cons, List.any_nil, h1, h2]
  rfl

lemma invoice_not_writes_grInput (p : DeployParams) :
    grantsS3WriteOn (invoiceLambdaOf p) (grInputBucketName p.account) = false := by
  have h1 := decide_eq_false
    ((bucketArn_ne_objectsArn (by
        rw [appended_length "rtp-overlay-iso20022-" p.account 21 rfl,
            appended_length "rtp-overlay-receipts-input-" p.account 27 rfl]
        omega) :
      bucketArn ("rtp-overlay-iso20022-" ++ p.account)
        ≠ bucketObjectsArn ("rtp-overlay-receipts-input-" ++ p.account)))
  have h2 := decide_eq_false
    (bucketObjectsArn_ne (Ne.symm (grName_ne_isoName p.account)) :
      bucketObjectsArn ("rtp-overlay-iso20022-" ++ p.account)
        ≠ bucketObjectsArn ("rtp-overlay-receipts-input-" ++ p.account))
  simp only [grantsS3WriteOn, invoiceLambdaOf, invoiceProcessingLambda,
    grantReadStatement, grantWriteStatement, secretGrantReadStatement,
    invoiceInputBucketName, iso20022BucketName, grInputBucketName,
    List.any_cons, List.any_nil, h1, h2]
  rfl

/-- A function's grants never write or delete on the given bucket: every
statement of its role either carries no S3 write action or does not name the
bucket's ARNs. -/
def readOnlyOnBucket (f : LambdaFunction) (bucket : String) : Bool :=
  f.policies.all (fun st =>
    st.actions.all (fun a => !(isS3WriteAction a)) ||
    st.resources.all (fun r =>
      !(decide (r = bucketArn bucket) || decide (r = bucketObjectsArn bucket))))

/-! ### Claim theorems -/

/-- C3.  For every object store of the deployment no two compute units hold
write grants on it (each bucket's writer list is a singleton), the proxying
unit `ApiLambda` is the only compute unit with write grants on more than one
bucket, the invoice ingestion unit writes only to the ISO20022 output bucket,
and the goods-receipt ingestion unit writes to no bucket. -/
theorem single_writer_per_bucket (p : DeployParams) :
    writersOf (allComputeUnits p) (receiptsBucketName p.account) = [apiLambdaOf p]
  ∧ writersOf (allComputeUnits p) (invoiceInputBucketName p.account) = [apiLambdaOf p]
  ∧ writersOf (allComputeUnits p) (grInputBucketName p.account) = [apiLambdaOf p]
  ∧ writersOf (allComputeUnits p) (iso20022BucketName p.account) = [invoiceLambdaOf p]
  ∧ multiBucketWriters (allComputeUnits p) (allBuckets p.account) = [apiLambdaOf p]
  ∧ writtenBuckets (invoiceLambdaOf p) (allBuckets p.account) = [iso20022BucketName p.account]
  ∧ writtenBuckets (grLambdaOf p) (allBuckets p.account) = [] := by
  refine ⟨?_, ?_, ?_, ?_, ?_, ?_, ?_⟩
  · simp [writersOf, allComputeUnits, List.filter, virtualCard_no_write,
      processPayments_no_write, getPaymentDetails_no_write, getSecurityCode_no_write,
      migration_no_write, invoker_no_write, gr_no_write,
      api_writes_receipts, invoice_not_writes_receipts]
  · simp [writersOf, allComputeUnits, List.filter, virtualCard_no_write,
      processPayments_no_write, getPaymentDetails_no_write, getSecurityCode_no_write,
      migration_no_write, invoker_no_write, gr_no_write,
      api_writes_invoiceInput, invoice_not_writes_invoiceInput]
  · simp [writersOf, allComputeUnits, List.filter, virtualCard_no_write,
      processPayments_no_write, getPaymentDetails_no_write, getSecurityCode_no_write,
      migration_no_write, invoker_no_write, gr_no_write,
      api_writes_grInput, invoice_not_writes_grInput]
  · simp [writersOf, allComputeUnits, List.filter, virtualCard_no_write,
      processPayments_no_write, getPaymentDetails_no_write, getSecurityCode_no_write,
      migration_no_write, invoker_no_write, gr_no_write,
      api_not_writes_iso, invoice_writes_iso]
  · simp [multiBucketWriters, allComputeUnits, List.filter, writtenBuckets, allBuckets,
      virtualCard_no_write, processPayments_no_write, getPaymentDetails_no_write,
      getSecurityCode_no_write, migration_no_write, invoker_no_write, gr_no_write,
      api_writes_receipts, api_writes_invoiceInput, api_writes_grInput,
      api_not_writes_iso, invoice_writes_iso, invoice_not_writes_receipts,
      invoice_not_writes_invoiceInput, invoice_not_writes_grInput]
  · simp [writtenBuckets, allBuckets, List.filter, invoice_writes_iso,
      invoice_not_writes_receipts, invoice_not_writes_invoiceInput,
      invoice_not_writes_grInput]
  · simp [writtenBuckets, allBuckets, List.filter, gr_no_write]

/-- C6.  Each ingestion unit's grant on its own input bucket is read-only:
no statement of either ingestion unit's role grants a write or delete action
on that unit's input bucket, while the `grantRead` statement on the input
bucket is present. -/
theorem ingestion_input_bucket_read_only (p : DeployParams) :
    readOnlyOnBucket (invoiceLambdaOf p) (invoiceInputBucketName p.account) = true
  ∧ readOnlyOnBucket (grLambdaOf p) (grInputBucketName p.account) = true
  ∧ grantReadStatement (invoiceInputBucketName p.account) ∈ (invoiceLambdaOf p).policies
  ∧ grantReadStatement (grInputBucketName p.account) ∈ (grLambdaOf p).policies := by
  have h1 := decide_eq_false
    ((bucketArn_ne_objectsArn (by
        rw [appended_length "rtp-overlay-iso20022-" p.account 21 rfl,
            appended_length "rtp-overlay-invoices-input-" p.account 27 rfl]
        omega) :
      bucketArn ("rtp-overlay-iso20022-" ++ p.account)
        ≠ bucketObjectsArn ("rtp-overlay-invoices-input-" ++ p.account)))
  have h2 := decide_eq_false
    (bucketObjectsArn_ne (Ne.symm (invName_ne_isoName p.account)) :
      bucketObjectsArn ("rtp-overlay-iso20022-" ++ p.account)
        ≠ bucketObjectsArn ("rtp-overlay-invoices-input-" ++ p.account))
  have h3 := decide_eq_false
    ((string_ne_of_length_ne (by
        rw [bucketArn_length, bucketArn_length,
            appended_length "rtp-overlay-iso20022-" p.account 21 rfl,
            appended_length "rtp-overlay-invoices-input-" p.account 27 rfl]
        omega) :
      bucketArn ("rtp-overlay-iso20022-" ++ p.account)
        ≠ bucketArn ("rtp-overlay-invoices-input-" ++ p.account)))
  have h4 := decide_eq_false
    ((string_ne_of_length_ne (by
        rw [bucketObjectsArn_length, appended_length "rtp-overlay-iso20022-" p.account 21 rfl,
            bucketArn_length, appended_length "rtp-overlay-invoices-input-" p.account 27 rfl]
        omega) :
      bucketObjectsArn ("rtp-overlay-iso20022-" ++ p.account)
        ≠ bucketArn ("rtp-overlay-invoices-input-" ++ p.account)))
  refine ⟨?_, rfl, ?_, ?_⟩
  · simp only [readOnlyOnBucket, invoiceLambdaOf, invoiceProcessingLambda,
      grantReadStatement, grantWriteStatement, secretGrantReadStatement,
      invoiceInputBucketName, iso20022BucketName,
      List.all_cons, List.all_nil, h1, h2, h3, h4]
    rfl
  · simp [invoiceLambdaOf, invoiceProcessingLambda]
  · simp [grLambdaOf, grProcessingLambda, grInputBucketOf, grInputBucketName]

/-- C5.  Every statement of every compute unit that grants a KMS action
carries exactly the `kms:RequestAlias = alias/rtp-overlay-payment-cards`
condition, and the proxying unit's KMS grant is that statement: actions
`kms:Encrypt`/`kms:Decrypt`/`kms:DescribeKey` over the account's `key/*`
wildcard ARN with the alias condition. -/
theorem kms_grants_alias_conditioned (p : DeployParams) :
    ((allComputeUnits p).all (fun f => f.policies.all (fun st =>
        !(st.actions.any (fun a => strHasPrefix "kms:" a)) ||
        decide (st.conditions =
          [ { op := "StringEquals", key := "kms:RequestAlias",
              value := "alias/rtp-overlay-payment-cards" } ])))) = true
  ∧ { actions := ["kms:Encrypt", "kms:Decrypt", "kms:DescribeKey"],
      resources := ["arn:aws:kms:us-east-1:" ++ p.account ++ ":key/*"],
      conditions := [ { op := "StringEquals", key := "kms:RequestAlias",
                        value := "alias/rtp-overlay-payment-cards" } ] }
      ∈ (apiLambdaOf p).policies := by
  constructor
  · rfl
  · simp [apiLambdaOf, apiLambda, apiLambdaPolicies]

/-- C7.  The compute units attached to the VPC are exactly the proxying unit
and the migration unit; the two ingestion units, the agent invocation bridge
and the four stub simulator units carry no VPC configuration. -/
theorem vpc_attachment_exactly_api_and_migration (p : DeployParams) :
    (allComputeUnits p).filter (fun f => f.inVpc) = [apiLambdaOf p, migrationLambdaOf p]
  ∧ (allComputeUnits p).filter (fun f => !f.inVpc) =
      [virtualCardLambda, processPaymentsLambda, getPaymentDetailsLambda,
       getSecurityCodeLambda, invokerLambdaOf p, grLambdaOf p, invoiceLambdaOf p]
  ∧ (invokerLambdaOf p).inVpc = false
  ∧ (grLambdaOf p).inVpc = false
  ∧ (invoiceLambdaOf p).inVpc = false := ⟨rfl, rfl, rfl, rfl, rfl⟩

/-- C4.  On the Agent Invocation Bridge's initial deployment its
`RUNTIME_ARN` environment value is the literal placeholder `'PLACEHOLDER'`. -/
theorem bridge_runtime_arn_placeholder (account : String) :
    envLookup (agentCoreInvokerLambda account) "RUNTIME_ARN"
      = some (EnvValue.lit "PLACEHOLDER") := rfl

/-- The number of value changes along a sequence of phases. -/
def countChanges : List EnvValue → Nat
  | a :: b :: rest => (if a = b then 0 else 1) + countChanges (b :: rest)
  | _ => 0

/-- C1.  Two-phase resolution of the bridge function name: in phase 1 (the
`agentcoreInvokerExists` context not `'true'`) the proxying unit's consumed
`AGENTCORE_INVOKER_LAMBDA_NAME` is the literal placeholder
`'rtp-overlay-agentcore-invoker'`; in phase 2 (context `'true'`) it is
the import of the bridge's export `AgentCoreInvokerLambdaName`, whose resolved
value is the bridge's function name; and across the two phases the consumed
value changes exactly once, from placeholder to resolved import. -/
theorem two_phase_invoker_name_resolution (p : DeployParams) (c₁ : Option String)
    (h : c₁ ≠ some "true") :
    envLookup (apiLambda p.account (lambdaStackPropsOf p) c₁)
        "AGENTCORE_INVOKER_LAMBDA_NAME"
      = some (EnvValue.lit "rtp-overlay-agentcore-invoker")
  ∧ envLookup (apiLambda p.account (lambdaStackPropsOf p) (some "true"))
        "AGENTCORE_INVOKER_LAMBDA_NAME"
      = some (EnvValue.importValue "AgentCoreInvokerLambdaName")
  ∧ resolveImport (agentCoreInvokerStackExports p.account)
        (EnvValue.importValue "AgentCoreInvokerLambdaName")
      = some "rtp-overlay-agentcore-invoker"
  ∧ (agentCoreInvokerLambda p.account).functionName = some "rtp-overlay-agentcore-invoker"
  ∧ countChanges [agentcoreInvokerEnvValue c₁, agentcoreInvokerEnvValue (some "true")] = 1
  ∧ agentcoreInvokerEnvValue c₁ = EnvValue.lit "rtp-overlay-agentcore-invoker"
  ∧ agentcoreInvokerEnvValue (some "true")
      = EnvValue.importValue "AgentCoreInvokerLambdaName" := by
  have hval : agentcoreInvokerEnvValue c₁ = EnvValue.lit "rtp-overlay-agentcore-invoker" := by
    unfold agentcoreInvokerEnvValue
    rw [if_neg h]
  have hfind : envLookup (apiLambda p.account (lambdaStackPropsOf p) c₁)
      "AGENTCORE_INVOKER_LAMBDA_NAME" = some (agentcoreInvokerEnvValue c₁) := rfl
  refine ⟨?_, rfl, rfl, rfl, ?_, hval, rfl⟩
  · rw [hfind, hval]
  · rw [hval]
    rfl

/-- Deploy-time inputs used to instantiate the hypotheses of the claim
theorems at a concrete deployment. -/
def sampleParams : DeployParams :=
  { account := "123456789012",
    region := "us-east-1",
    vpcId := "vpc-0123456789abcdef0",
    dbEndpoint := "rtp-overlay-db.abc123.us-east-1.rds.amazonaws.com",
    dbSecretArn :=
      "arn:aws:secretsmanager:us-east-1:123456789012:secret:rtp-overlay-db-credentials-AbCdEf",
    rtpApiUrl := "https://abc123.execute-api.us-east-1.amazonaws.com/prod",
    agentcoreInvokerExists := none }

/-- C1 witness: the two-phase resolution theorem applied at the sample
deployment with the context flag unset in phase 1. -/
theorem two_phase_invoker_name_resolution_witness :
    envLookup (apiLambda sampleParams.account (lambdaStackPropsOf sampleParams) none)
        "AGENTCORE_INVOKER_LAMBDA_NAME"
      = some (EnvValue.lit "rtp-overlay-agentcore-invoker")
  ∧ envLookup (apiLambda sampleParams.account (lambdaStackPropsOf sampleParams) (some "true"))
        "AGENTCORE_INVOKER_LAMBDA_NAME"
      = some (EnvValue.importValue "AgentCoreInvokerLambdaName")
  ∧ resolveImport (agentCoreInvokerStackExports sampleParams.account)
        (EnvValue.importValue "AgentCoreInvokerLambdaName")
      = some "rtp-overlay-agentcore-invoker"
  ∧ (agentCoreInvokerLambda sampleParams.account).functionName
      = some "rtp-overlay-agentcore-invoker"
  ∧ countChanges [agentcoreInvokerEnvValue none, agentcoreInvokerEnvValue (some "true")] = 1
  ∧ agentcoreInvokerEnvValue none = EnvValue.lit "rtp-overlay-agentcore-invoker"
  ∧ agentcoreInvokerEnvValue (some "true")
      = EnvValue.importValue "AgentCoreInvokerLambdaName" :=
  two_phase_invoker_name_resolution sampleParams none (by decide)

/-- C2 counterexample: not every ingress rule on the database security group
names a security group as its source — the first rule's source is the VPC
CIDR range. -/
theorem db_ingress_cidr_rule_counterexample :
    ¬ (∀ r ∈ dbSecurityGroupIngress "10.0.0.0/16", isSecurityGroupPeer r.source = true) := by
  decide

/-- C2 amended.  The database security group carries exactly two ingress
rules on port 5432: one sourced from the whole VPC CIDR range and one sourced
from the Lambda compute units' security group; the security-group-sourced
rules are exactly the Lambda one, so the compute units reach the database
attachment-to-attachment, but one CIDR-sourced rule coexists with it. -/
theorem db_ingress_rules_shape (vpcCidrBlock : String) :
    dbSecurityGroupIngress vpcCidrBlock =
      [ { source := SGPeer.ipv4 vpcCidrBlock, tcpPort := 5432,
          description := "Allow PostgreSQL access from VPC" },
        { source := SGPeer.securityGroup "LambdaSecurityGroup", tcpPort := 5432,
          description := "Allow Lambda access to RDS" } ]
  ∧ (dbSecurityGroupIngress vpcCidrBlock).filter (fun r => isSecurityGroupPeer r.source) =
      [ { source := SGPeer.securityGroup "LambdaSecurityGroup", tcpPort := 5432,
          description := "Allow Lambda access to RDS" } ]
  ∧ (dbSecurityGroupIngress vpcCidrBlock).filter (fun r => !(isSecurityGroupPeer r.source)) =
      [ { source := SGPeer.ipv4 vpcCidrBlock, tcpPort := 5432,
          description := "Allow PostgreSQL access from VPC" } ] :=
  ⟨rfl, rfl, rfl⟩

/-- C8.  The proxying unit's `lambda:InvokeFunction` grant is independent of
the `agentcoreInvokerExists` context: its policies are identical in both
phases, the invoke statement names the one hard-coded resource ARN ending in
`:function:rtp-overlay-agentcore-invoker`, and the environment differs at most
at the `AGENTCORE_INVOKER_LAMBDA_NAME` key. -/
theorem invoke_grant_independent_of_context (p : DeployParams) (c₁ c₂ : Option String) :
    (apiLambda p.account (lambdaStackPropsOf p) c₁).policies
      = (apiLambda p.account (lambdaStackPropsOf p) c₂).policies
  ∧ { actions := ["lambda:InvokeFunction"],
      resources := ["arn:aws:lambda:us-east-1:" ++ p.account
        ++ ":function:rtp-overlay-agentcore-invoker"],
      conditions := [] }
      ∈ (apiLambda p.account (lambdaStackPropsOf p) c₁).policies
  ∧ (∃ s, "arn:aws:lambda:us-east-1:" ++ p.account
        ++ ":function:rtp-overlay-agentcore-invoker"
      = s ++ ":function:rtp-overlay-agentcore-invoker")
  ∧ (apiLambda p.account (lambdaStackPropsOf p) c₁).environment.filter
        (fun kv => !(decide (kv.1 = "AGENTCORE_INVOKER_LAMBDA_NAME")))
      = (apiLambda p.account (lambdaStackPropsOf p) c₂).environment.filter
        (fun kv => !(decide (kv.1 = "AGENTCORE_INVOKER_LAMBDA_NAME"))) := by
  refine ⟨rfl, ?_, ⟨"arn:aws:lambda:us-east-1:" ++ p.account, rfl⟩, rfl⟩
  simp [apiLambda, apiLambdaPolicies]

/-- C9.  The stub network simulator exposes exactly four POST methods at the
four fixed `/vpa/v1/...` paths, each integrated with a distinct stub Lambda
whose `RESPONSE_MODE` environment value is the literal `'SUCCESS'`. -/
theorem stub_api_four_post_methods :
    visaStubApi.methods = visaStubMethods
  ∧ visaStubApi.proxyResource = none
  ∧ visaStubMethods.length = 4
  ∧ (visaStubMethods.all (fun m => decide (m.httpMethod = "POST"))) = true
  ∧ visaStubMethods.map (fun m => m.path) =
      [ ["vpa", "v1", "accountManagement", "VirtualCardRequisition"],
        ["vpa", "v1", "accountManagement", "GetSecurityCode"],
        ["vpa", "v1", "payment", "ProcessPayments"],
        ["vpa", "v1", "payment", "GetPaymentDetails"] ]
  ∧ (visaStubMethods.map (fun m => m.integration)).Nodup
  ∧ (visaStubMethods.all (fun m =>
      match stubLambdaFor m.integration with
      | some f => decide (envLookup f "RESPONSE_MODE" = some (EnvValue.lit "SUCCESS"))
      | none => false)) = true := by
  refine ⟨rfl, rfl, rfl, ?_, rfl, ?_, ?_⟩ <;> decide

/-- C10.  The proxying unit's HTTP surface is a single catch-all proxy
resource accepting any method and forwarding to `ApiLambda`, with exactly the
binary media types `multipart/form-data`, `image/*` and `application/pdf`,
and no other method wiring. -/
theorem proxy_api_catch_all_and_binary_types (p : DeployParams) :
    rtpOverlayApi.binaryMediaTypes = ["multipart/form-data", "image/*", "application/pdf"]
  ∧ rtpOverlayApi.proxyResource =
      some { anyMethod := true, integration := (apiLambdaOf p).constructId }
  ∧ rtpOverlayApi.methods = [] := ⟨rfl, rfl, rfl⟩

end RtpOverlay
